import Mathlib

/-!
Verification of the SpaceApps 2025 UrbanPlanner backend
(`src/main.py` and `src/services/*.py`) against its specification.

Shallow embedding conventions:
* Python JSON-like values (dicts, lists, strings, numbers, booleans, `None`)
  are modelled by `PyVal`; dicts are association lists in insertion order.
* Latitude/longitude and other numeric values are modelled by `ℚ`.
  The only numeric fact any claim depends on is an exact zero denominator
  at `lat = 0`, which rationals represent exactly (Python floats also
  represent it exactly there).
* Each upstream HTTP interaction performed inside a service method is an
  `UpstreamOutcome` parameter: the request either completed with a status
  code and parsed JSON body, or some exception was raised inside the
  `try` block (network error, malformed payload, ...).  The URL/params
  construction in the source has no effect on the returned value and is
  recorded in comments.
* Wall-clock timestamps (`datetime.now()`) are passed in as parameters.
* Fallible Python code is embedded in `Except PyErr`; an uncaught
  exception in a FastAPI handler becomes `Except.error (500, msg)`
  (`raise HTTPException(status_code=500, detail=str(e))`).
-/

/-- A Python JSON-like value: strings, rational numbers, booleans,
dicts (association lists in insertion order), lists, and `None`. -/
inductive PyVal : Type where
  | s (v : String)
  | n (v : ℚ)
  | b (v : Bool)
  | dict (fields : List (String × PyVal))
  | list (items : List PyVal)
  | none

/-- `d.get(k)` / `k in d` for a dict value: the value at key `k`, if any.
Returns `Option.none` when `d` is not a dict (the code only applies it to
dicts). -/
def pyGet (d : PyVal) (k : String) : Option PyVal :=
  match d with
  | .dict fs => fs.lookup k
  | _ => Option.none

/-- Python exceptions that the embedded code can raise. -/
inductive PyErr : Type where
  | zeroDivisionError
  | attributeError (obj attr : String)
  | indexError
  | typeError (msg : String)
  deriving Repr, DecidableEq

/-- A single-quote character, written via its code point. -/
def pySQuote : String := String.mk [Char.ofNat 39]

/-- `str(e)` for the exceptions of `PyErr`, matching CPython messages. -/
def PyErr.str : PyErr → String
  | .zeroDivisionError => "float division by zero"
  | .attributeError obj attr =>
      pySQuote ++ obj ++ pySQuote ++ " object has no attribute " ++
        pySQuote ++ attr ++ pySQuote
  | .indexError => "list index out of range"
  | .typeError msg => msg

/-- The outcome of one upstream HTTP interaction, as observed inside a
service method's `try` block: either the request completed with a status
code and a parsed JSON body, or an exception was raised (transport error,
timeout, malformed payload, ...). -/
inductive UpstreamOutcome : Type where
  | response (status : Nat) (body : PyVal)
  | raised (msg : String)

/-- An outcome the spec counts as a failure of the source: a raised
exception, or a completed response with a non-200 status. -/
def UpstreamOutcome.isFailure : UpstreamOutcome → Bool
  | .response st _ => st ≠ 200
  | .raised _ => true

/-- The dict `{'lat': lat, 'lng': lng}` used by every fetch method. -/
def coordDict (lat lng : ℚ) : PyVal :=
  .dict [("lat", .n lat), ("lng", .n lng)]

/-- `OfficialNASAService._calculate_zoom_level` (official_nasa_service.py,
lines 304-314): piecewise on `abs(lat)`, exact over ℚ. -/
def calculate_zoom_level (lat : ℚ) : Nat :=
  if |lat| > 60 then 3
  else if |lat| > 30 then 4
  else if |lat| > 15 then 5
  else 6

/-- `OfficialNASAService._lng_to_tile` (lines 321-324):
`int((lng + 180) / 360 * (2 ** zoom))`.  For `lng ∈ [-180, 180]` the
argument is non-negative, so Python `int` truncation equals `Int.floor`. -/
def lng_to_tile (lng : ℚ) (zoom : Nat) : Int :=
  Int.floor ((lng + 180) / 360 * ((2 : ℚ) ^ zoom))

/-- `OfficialNASAService.get_earthdata_worldview_data`
(official_nasa_service.py, lines 37-74).  `today` stands for
`datetime.now().strftime('%Y-%m-%d')`; `latTile` stands for
`self._lat_to_tile(lat, zoom)`, whose transcendental float computation
(`asinh`, `tan`) is not exactly representable and whose value no claim
depends on.  On a 200 response the method returns tile metadata; on any
other status or a raised exception it returns an error dict. -/
def get_earthdata_worldview_data (lat lng : ℚ) (layer : String)
    (date : Option String) (today : String) (latTile : Int)
    (o : UpstreamOutcome) : PyVal :=
  let date := date.getD today
  let zoom := calculate_zoom_level lat
  let url := "https://gibs.earthdata.nasa.gov/wmts/epsg4326/best/" ++ layer ++
    "/default/" ++ date ++ "/" ++ toString zoom ++ "/" ++ toString latTile ++
    "/" ++ toString (lng_to_tile lng zoom) ++ ".png"
  match o with
  | .response st _ =>
      if st = 200 then
        .dict [("source", .s "NASA Earthdata Worldview"),
               ("layer", .s layer),
               ("date", .s date),
               ("coordinates", coordDict lat lng),
               ("tile_url", .s url),
               ("status", .s "success"),
               ("description", .s "Satellite data visualization from NASA Earthdata Worldview")]
      else .dict [("error", .s ("Failed to fetch data: " ++ toString st))]
  | .raised m =>
      .dict [("error", .s ("Error accessing Earthdata Worldview: " ++ m))]

/-- `OfficialNASAService.get_sedac_demographic_data` (lines 76-110). -/
def get_sedac_demographic_data (lat lng : ℚ) (dataset : String)
    (o : UpstreamOutcome) : PyVal :=
  -- url = f"https://sedac.ciesin.columbia.edu/data/set/{dataset}/api",
  -- params = {'lat': lat, 'lng': lng, 'format': 'json'}
  match o with
  | .response st body =>
      if st = 200 then
        .dict [("source", .s "NASA SEDAC"),
               ("dataset", .s dataset),
               ("coordinates", coordDict lat lng),
               ("data", body),
               ("status", .s "success"),
               ("description", .s "Demographic and equity data from NASA SEDAC")]
      else .dict [("error", .s ("Failed to fetch SEDAC data: " ++ toString st))]
  | .raised m =>
      .dict [("error", .s ("Error accessing SEDAC data: " ++ m))]

/-- `OfficialNASAService.get_ghsl_urban_data` (lines 112-147). -/
def get_ghsl_urban_data (lat lng : ℚ) (dataset : String)
    (o : UpstreamOutcome) : PyVal :=
  -- url = f"{base_urls['ghsl']}/api/urban-settlement"
  match o with
  | .response st body =>
      if st = 200 then
        .dict [("source", .s "EU Copernicus GHSL"),
               ("dataset", .s dataset),
               ("coordinates", coordDict lat lng),
               ("data", body),
               ("status", .s "success"),
               ("description", .s "Urban settlement data from EU Copernicus GHSL")]
      else .dict [("error", .s ("Failed to fetch GHSL data: " ++ toString st))]
  | .raised m =>
      .dict [("error", .s ("Error accessing GHSL data: " ++ m))]

/-- `OfficialNASAService.get_worldpop_data` (lines 149-184). -/
def get_worldpop_data (lat lng : ℚ) (year : ℤ)
    (o : UpstreamOutcome) : PyVal :=
  -- url = f"{base_urls['worldpop']}/population"
  match o with
  | .response st body =>
      if st = 200 then
        .dict [("source", .s "WorldPop"),
               ("year", .n (year : ℚ)),
               ("coordinates", coordDict lat lng),
               ("data", body),
               ("status", .s "success"),
               ("description", .s "Population data from WorldPop")]
      else .dict [("error", .s ("Failed to fetch WorldPop data: " ++ toString st))]
  | .raised m =>
      .dict [("error", .s ("Error accessing WorldPop data: " ++ m))]

/-- `OfficialNASAService.get_copernicus_climate_data` (lines 186-221). -/
def get_copernicus_climate_data (lat lng : ℚ) (dataset : String)
    (o : UpstreamOutcome) : PyVal :=
  -- url = f"{base_urls['copernicus']}/land-use"
  match o with
  | .response st body =>
      if st = 200 then
        .dict [("source", .s "EU Copernicus"),
               ("dataset", .s dataset),
               ("coordinates", coordDict lat lng),
               ("data", body),
               ("status", .s "success"),
               ("description", .s "Climate and land use data from EU Copernicus")]
      else .dict [("error", .s ("Failed to fetch Copernicus data: " ++ toString st))]
  | .raised m =>
      .dict [("error", .s ("Error accessing Copernicus data: " ++ m))]

/-- `OfficialNASAService.get_wri_urban_data` (lines 223-258). -/
def get_wri_urban_data (lat lng : ℚ) (dataset : String)
    (o : UpstreamOutcome) : PyVal :=
  -- url = f"{base_urls['wri']}/urban-landscape"
  match o with
  | .response st body =>
      if st = 200 then
        .dict [("source", .s "World Resources Institute"),
               ("dataset", .s dataset),
               ("coordinates", coordDict lat lng),
               ("data", body),
               ("status", .s "success"),
               ("description", .s "Urban landscape data from World Resources Institute")]
      else .dict [("error", .s ("Failed to fetch WRI data: " ++ toString st))]
  | .raised m =>
      .dict [("error", .s ("Error accessing WRI data: " ++ m))]

/-- What a gathered task produced: `asyncio.gather(..., return_exceptions=True)`
stores either the coroutine's return value or the exception it raised. -/
inductive TaskRes : Type where
  | val (d : PyVal)
  | exc (msg : String)

/-- `isinstance(r, Exception)` on a gathered result. -/
def TaskRes.isException : TaskRes → Bool
  | .val _ => false
  | .exc _ => true

/-- The dict returned by task `i` of `get_comprehensive_urban_data`
(official_nasa_service.py, lines 269-276), in declaration order: each
task runs one fetch method at its default arguments on its own upstream
outcome. -/
def taskDict (lat lng : ℚ) (today : String) (latTile : Int)
    (outcomes : Fin 6 → UpstreamOutcome) : Fin 6 → PyVal
  | 0 => get_earthdata_worldview_data lat lng
      "MODIS_Terra_Land_Surface_Temperature_Day" Option.none today latTile
      (outcomes 0)
  | 1 => get_sedac_demographic_data lat lng "gpw-v4-population-density"
      (outcomes 1)
  | 2 => get_ghsl_urban_data lat lng "built-up-area" (outcomes 2)
  | 3 => get_worldpop_data lat lng 2020 (outcomes 3)
  | 4 => get_copernicus_climate_data lat lng "land-use" (outcomes 4)
  | 5 => get_wri_urban_data lat lng "urban-landscape" (outcomes 5)

/-- Every fetch method wraps its whole body in `try/except Exception`, so
each task returns its dict and never raises: its `TaskRes` is always
`.val`. -/
def runTask (lat lng : ℚ) (today : String) (latTile : Int)
    (outcomes : Fin 6 → UpstreamOutcome) : Fin 6 → TaskRes :=
  fun i => .val (taskDict lat lng today latTile outcomes i)

/-- The six tasks finish in a nondeterministic completion order, modelled
as a permutation `perm` of their indices: entry `k` of the log is the
result of the task that finished `k`-th. -/
def completionLog (perm : Equiv.Perm (Fin 6)) (run : Fin 6 → TaskRes) :
    List (Fin 6 × TaskRes) :=
  (List.finRange 6).map fun k => (perm k, run (perm k))

/-- `asyncio.gather` semantics: however the tasks interleave, the result
list is indexed by the order the awaitables were passed in, so position
`i` holds the result recorded for task `i` in the completion log. -/
def gather (perm : Equiv.Perm (Fin 6)) (run : Fin 6 → TaskRes)
    (i : Fin 6) : TaskRes :=
  (((completionLog perm run).lookup i).getD (.exc "pending"))

/-- `results = await asyncio.gather(*tasks, return_exceptions=True)` as a
list (official_nasa_service.py, line 278). -/
def gatherList (perm : Equiv.Perm (Fin 6)) (run : Fin 6 → TaskRes) :
    List TaskRes :=
  (List.finRange 6).map (gather perm run)

/-- Looking a key up in a key-value list built by pairing each element
with its image finds the image of the key, whenever the key occurs. -/
theorem lookup_map_pair {α β : Type} [DecidableEq α] (f : α → β) (i : α) :
    ∀ l : List α, i ∈ l →
      (l.map fun j => (j, f j)).lookup i = some (f i) := by
  intro l hl
  induction l with
  | nil => cases hl
  | cons a l ih =>
      by_cases hia : i = a
      · subst hia; simp [List.lookup]
      · have h : i ∈ l := by
          rcases List.mem_cons.mp hl with h | h
          · exact absurd h hia
          · exact h
        have hba : (i == a) = false := beq_eq_false_iff_ne.mpr hia
        simp [List.lookup, hba, ih h]

/-- The completion order cancels out: gathered result `i` is exactly what
task `i` returned. -/
theorem gather_eq (perm : Equiv.Perm (Fin 6)) (run : Fin 6 → TaskRes)
    (i : Fin 6) : gather perm run i = run i := by
  have hmem : i ∈ (List.finRange 6).map perm := by
    simpa using ⟨perm.symm i, by simp⟩
  have hlog : completionLog perm run =
      ((List.finRange 6).map perm).map fun j => (j, run j) := by
    simp [completionLog, Function.comp]
  rw [gather, hlog, lookup_map_pair run i _ hmem]
  rfl

/-- `gatherList` is the per-task results in declaration order. -/
theorem gatherList_eq (perm : Equiv.Perm (Fin 6)) (run : Fin 6 → TaskRes) :
    gatherList perm run = [run 0, run 1, run 2, run 3, run 4, run 5] := by
  have h : List.finRange 6 = [0, 1, 2, 3, 4, 5] := by decide
  rw [gatherList, h]
  simp [gather_eq]

/-- The `'summary'` sub-dict of the comprehensive response
(official_nasa_service.py, lines 292-296). -/
structure Summary : Type where
  total_sources : Nat
  successful_sources : List PyVal
  failed_sources : List String

/-- The dict returned by `get_comprehensive_urban_data`
(official_nasa_service.py, lines 281-297), with the dict skeleton as
fields: `coordinates`, `timestamp`, `sources` (an insertion-ordered dict
from source name to gathered result) and `summary`. -/
structure ComprehensiveData : Type where
  coordinates : ℚ × ℚ
  timestamp : String
  sources : List (String × TaskRes)
  summary : Summary

/-- `OfficialNASAService.get_comprehensive_urban_data`
(official_nasa_service.py, lines 260-302).  `now` stands for
`datetime.now().isoformat()`.  The six fetches run concurrently and may
complete in any order `perm`; `asyncio.gather` re-indexes the results in
declaration order.  The summary comprehensions (lines 293-295) are:
`total_sources`: number of non-exception results;
`successful_sources`: `r.get('source', 'Unknown')` for every non-exception
result `r` with key `'source'`;
`failed_sources`: `str(r)` for every exception result.
(The surrounding `try/except` never fires: nothing in the body raises.) -/
def get_comprehensive_urban_data (lat lng : ℚ) (today now : String)
    (latTile : Int) (outcomes : Fin 6 → UpstreamOutcome)
    (perm : Equiv.Perm (Fin 6)) : ComprehensiveData :=
  let run := runTask lat lng today latTile outcomes
  let results := gatherList perm run
  { coordinates := (lat, lng)
    timestamp := now
    sources := [("nasa_earthdata", gather perm run 0),
                ("nasa_sedac", gather perm run 1),
                ("eu_ghsl", gather perm run 2),
                ("worldpop", gather perm run 3),
                ("eu_copernicus", gather perm run 4),
                ("wri", gather perm run 5)]
    summary :=
      { total_sources := (results.filter fun r => !r.isException).length
        successful_sources := results.filterMap fun r =>
          match r with
          | .exc _ => Option.none
          | .val d => pyGet d "source"
        failed_sources := results.filterMap fun r =>
          match r with
          | .exc m => some m
          | .val _ => Option.none } }

/-- The handler of `GET /api/official/comprehensive` (main.py, lines
263-273): the awaited service call is total, so the `except` branch
(HTTP 500) is unreachable and the data is always served as HTTP 200. -/
def http_get_comprehensive (lat lng : ℚ) (today now : String)
    (latTile : Int) (outcomes : Fin 6 → UpstreamOutcome)
    (perm : Equiv.Perm (Fin 6)) :
    Except (Nat × String) ComprehensiveData :=
  Except.ok (get_comprehensive_urban_data lat lng today now latTile outcomes perm)

/-- The six declared source names, in declaration order (the keys of the
`'sources'` dict, official_nasa_service.py, lines 284-291). -/
def sourceKey : Fin 6 → String
  | 0 => "nasa_earthdata"
  | 1 => "nasa_sedac"
  | 2 => "eu_ghsl"
  | 3 => "worldpop"
  | 4 => "eu_copernicus"
  | 5 => "wri"

/-- The `'source'` display name each fetch method places in its success
dict. -/
def displayName : Fin 6 → String
  | 0 => "NASA Earthdata Worldview"
  | 1 => "NASA SEDAC"
  | 2 => "EU Copernicus GHSL"
  | 3 => "WorldPop"
  | 4 => "EU Copernicus"
  | 5 => "World Resources Institute"

theorem displayName_inj : ∀ i j : Fin 6, displayName i = displayName j → i = j := by
  decide

/-- The earthdata fetch yields a dict with a `'source'` key exactly on a
200 response, and then the key holds the display name. -/
theorem source_field_earthdata (lat lng : ℚ) (layer : String)
    (date : Option String) (today : String) (latTile : Int)
    (o : UpstreamOutcome) :
    pyGet (get_earthdata_worldview_data lat lng layer date today latTile o)
        "source" =
      if o.isFailure then Option.none
      else some (.s "NASA Earthdata Worldview") := by
  rcases o with ⟨st, body⟩ | m
  · by_cases h : st = 200 <;>
      simp [get_earthdata_worldview_data, UpstreamOutcome.isFailure, pyGet,
        List.lookup, h]
  · simp [get_earthdata_worldview_data, UpstreamOutcome.isFailure, pyGet,
      List.lookup]

theorem source_field_sedac (lat lng : ℚ) (dataset : String)
    (o : UpstreamOutcome) :
    pyGet (get_sedac_demographic_data lat lng dataset o) "source" =
      if o.isFailure then Option.none else some (.s "NASA SEDAC") := by
  rcases o with ⟨st, body⟩ | m
  · by_cases h : st = 200 <;>
      simp [get_sedac_demographic_data, UpstreamOutcome.isFailure, pyGet,
        List.lookup, h]
  · simp [get_sedac_demographic_data, UpstreamOutcome.isFailure, pyGet,
      List.lookup]

theorem source_field_ghsl (lat lng : ℚ) (dataset : String)
    (o : UpstreamOutcome) :
    pyGet (get_ghsl_urban_data lat lng dataset o) "source" =
      if o.isFailure then Option.none else some (.s "EU Copernicus GHSL") := by
  rcases o with ⟨st, body⟩ | m
  · by_cases h : st = 200 <;>
      simp [get_ghsl_urban_data, UpstreamOutcome.isFailure, pyGet,
        List.lookup, h]
  · simp [get_ghsl_urban_data, UpstreamOutcome.isFailure, pyGet, List.lookup]

theorem source_field_worldpop (lat lng : ℚ) (year : ℤ)
    (o : UpstreamOutcome) :
    pyGet (get_worldpop_data lat lng year o) "source" =
      if o.isFailure then Option.none else some (.s "WorldPop") := by
  rcases o with ⟨st, body⟩ | m
  · by_cases h : st = 200 <;>
      simp [get_worldpop_data, UpstreamOutcome.isFailure, pyGet,
        List.lookup, h]
  · simp [get_worldpop_data, UpstreamOutcome.isFailure, pyGet, List.lookup]

theorem source_field_copernicus (lat lng : ℚ) (dataset : String)
    (o : UpstreamOutcome) :
    pyGet (get_copernicus_climate_data lat lng dataset o) "source" =
      if o.isFailure then Option.none else some (.s "EU Copernicus") := by
  rcases o with ⟨st, body⟩ | m
  · by_cases h : st = 200 <;>
      simp [get_copernicus_climate_data, UpstreamOutcome.isFailure, pyGet,
        List.lookup, h]
  · simp [get_copernicus_climate_data, UpstreamOutcome.isFailure, pyGet,
      List.lookup]

theorem source_field_wri (lat lng : ℚ) (dataset : String)
    (o : UpstreamOutcome) :
    pyGet (get_wri_urban_data lat lng dataset o) "source" =
      if o.isFailure then Option.none
      else some (.s "World Resources Institute") := by
  rcases o with ⟨st, body⟩ | m
  · by_cases h : st = 200 <;>
      simp [get_wri_urban_data, UpstreamOutcome.isFailure, pyGet,
        List.lookup, h]
  · simp [get_wri_urban_data, UpstreamOutcome.isFailure, pyGet, List.lookup]

/-- Task `i` yields a dict whose `'source'` key is present exactly when
outcome `i` succeeded, and then holds the declared display name. -/
theorem taskDict_source (lat lng : ℚ) (today : String) (latTile : Int)
    (outcomes : Fin 6 → UpstreamOutcome) (i : Fin 6) :
    pyGet (taskDict lat lng today latTile outcomes i) "source" =
      if (outcomes i).isFailure then Option.none
      else some (.s (displayName i)) := by
  fin_cases i <;>
    simp [taskDict, displayName, source_field_earthdata, source_field_sedac,
      source_field_ghsl, source_field_worldpop, source_field_copernicus,
      source_field_wri]

/-- On a failed outcome the earthdata fetch returns exactly a one-key
error dict. -/
theorem fail_shape_earthdata (lat lng : ℚ) (layer : String)
    (date : Option String) (today : String) (latTile : Int)
    (o : UpstreamOutcome) (h : o.isFailure = true) :
    ∃ m, get_earthdata_worldview_data lat lng layer date today latTile o =
      .dict [("error", .s m)] := by
  rcases o with ⟨st, body⟩ | m
  · have hst : st ≠ 200 := by
      simpa [UpstreamOutcome.isFailure] using h
    exact ⟨"Failed to fetch data: " ++ toString st, by simp [get_earthdata_worldview_data, hst]⟩
  · exact ⟨_, rfl⟩

theorem fail_shape_sedac (lat lng : ℚ) (dataset : String)
    (o : UpstreamOutcome) (h : o.isFailure = true) :
    ∃ m, get_sedac_demographic_data lat lng dataset o =
      .dict [("error", .s m)] := by
  rcases o with ⟨st, body⟩ | m
  · have hst : st ≠ 200 := by
      simpa [UpstreamOutcome.isFailure] using h
    exact ⟨"Failed to fetch SEDAC data: " ++ toString st, by simp [get_sedac_demographic_data, hst]⟩
  · exact ⟨_, rfl⟩

theorem fail_shape_ghsl (lat lng : ℚ) (dataset : String)
    (o : UpstreamOutcome) (h : o.isFailure = true) :
    ∃ m, get_ghsl_urban_data lat lng dataset o = .dict [("error", .s m)] := by
  rcases o with ⟨st, body⟩ | m
  · have hst : st ≠ 200 := by
      simpa [UpstreamOutcome.isFailure] using h
    exact ⟨"Failed to fetch GHSL data: " ++ toString st, by simp [get_ghsl_urban_data, hst]⟩
  · exact ⟨_, rfl⟩

theorem fail_shape_worldpop (lat lng : ℚ) (year : ℤ)
    (o : UpstreamOutcome) (h : o.isFailure = true) :
    ∃ m, get_worldpop_data lat lng year o = .dict [("error", .s m)] := by
  rcases o with ⟨st, body⟩ | m
  · have hst : st ≠ 200 := by
      simpa [UpstreamOutcome.isFailure] using h
    exact ⟨"Failed to fetch WorldPop data: " ++ toString st, by simp [get_worldpop_data, hst]⟩
  · exact ⟨_, rfl⟩

theorem fail_shape_copernicus (lat lng : ℚ) (dataset : String)
    (o : UpstreamOutcome) (h : o.isFailure = true) :
    ∃ m, get_copernicus_climate_data lat lng dataset o =
      .dict [("error", .s m)] := by
  rcases o with ⟨st, body⟩ | m
  · have hst : st ≠ 200 := by
      simpa [UpstreamOutcome.isFailure] using h
    exact ⟨"Failed to fetch Copernicus data: " ++ toString st, by simp [get_copernicus_climate_data, hst]⟩
  · exact ⟨_, rfl⟩

theorem fail_shape_wri (lat lng : ℚ) (dataset : String)
    (o : UpstreamOutcome) (h : o.isFailure = true) :
    ∃ m, get_wri_urban_data lat lng dataset o = .dict [("error", .s m)] := by
  rcases o with ⟨st, body⟩ | m
  · have hst : st ≠ 200 := by
      simpa [UpstreamOutcome.isFailure] using h
    exact ⟨"Failed to fetch WRI data: " ++ toString st, by simp [get_wri_urban_data, hst]⟩
  · exact ⟨_, rfl⟩

/-- A failed task yields exactly a one-key error dict. -/
theorem taskDict_fail (lat lng : ℚ) (today : String) (latTile : Int)
    (outcomes : Fin 6 → UpstreamOutcome) (i : Fin 6)
    (h : (outcomes i).isFailure = true) :
    ∃ m, taskDict lat lng today latTile outcomes i = .dict [("error", .s m)] := by
  fin_cases i
  · exact fail_shape_earthdata _ _ _ _ _ _ _ h
  · exact fail_shape_sedac _ _ _ _ h
  · exact fail_shape_ghsl _ _ _ _ h
  · exact fail_shape_worldpop _ _ _ _ h
  · exact fail_shape_copernicus _ _ _ _ h
  · exact fail_shape_wri _ _ _ _ h

/-- Task `i` reads the outcome vector only at `i`. -/
theorem taskDict_congr (lat lng : ℚ) (today : String) (latTile : Int)
    (outcomes outcomes' : Fin 6 → UpstreamOutcome) (i : Fin 6)
    (h : outcomes' i = outcomes i) :
    taskDict lat lng today latTile outcomes' i =
      taskDict lat lng today latTile outcomes i := by
  fin_cases i <;> simp_all [taskDict]

/-- The `successful_sources` comprehension collects, in declaration order,
the display name of every source whose outcome succeeded. -/
theorem successful_sources_eq (lat lng : ℚ) (today now : String)
    (latTile : Int) (outcomes : Fin 6 → UpstreamOutcome)
    (perm : Equiv.Perm (Fin 6)) :
    (get_comprehensive_urban_data lat lng today now latTile outcomes
        perm).summary.successful_sources =
      (List.finRange 6).filterMap fun i =>
        if (outcomes i).isFailure then Option.none
        else some (.s (displayName i)) := by
  have h : List.finRange 6 = [0, 1, 2, 3, 4, 5] := by decide
  simp only [get_comprehensive_urban_data, gatherList_eq, runTask, h,
    List.filterMap_cons, List.filterMap_nil, taskDict_source]

/-- No gathered result is an exception, so the `failed_sources`
comprehension is always empty. -/
theorem failed_sources_eq (lat lng : ℚ) (today now : String)
    (latTile : Int) (outcomes : Fin 6 → UpstreamOutcome)
    (perm : Equiv.Perm (Fin 6)) :
    (get_comprehensive_urban_data lat lng today now latTile outcomes
        perm).summary.failed_sources = [] := by
  simp only [get_comprehensive_urban_data, gatherList_eq, runTask,
    List.filterMap_cons, List.filterMap_nil]

/-- No gathered result is an exception, so `total_sources` is always 6. -/
theorem total_sources_eq (lat lng : ℚ) (today now : String)
    (latTile : Int) (outcomes : Fin 6 → UpstreamOutcome)
    (perm : Equiv.Perm (Fin 6)) :
    (get_comprehensive_urban_data lat lng today now latTile outcomes
        perm).summary.total_sources = 6 := by
  simp [get_comprehensive_urban_data, gatherList_eq, runTask,
    TaskRes.isException]

/-- Looking up the key of source `i` in the `'sources'` dict finds
task `i`'s result. -/
theorem sources_lookup (lat lng : ℚ) (today now : String) (latTile : Int)
    (outcomes : Fin 6 → UpstreamOutcome) (perm : Equiv.Perm (Fin 6))
    (i : Fin 6) :
    (get_comprehensive_urban_data lat lng today now latTile outcomes
        perm).sources.lookup (sourceKey i) =
      some (.val (taskDict lat lng today latTile outcomes i)) := by
  fin_cases i <;>
    simp [get_comprehensive_urban_data, sourceKey, List.lookup, gather_eq,
      runTask]

/-- C1: for every valid (lat, lng) pair and every combination of
per-source outcomes, `get_comprehensive_urban_data` returns a response
whose `'sources'` mapping contains exactly one entry for each of the six
declared source names — never more, never fewer. -/
theorem comprehensive_sources_exactly_six (lat lng : ℚ) (today now : String)
    (latTile : Int) (outcomes : Fin 6 → UpstreamOutcome)
    (perm : Equiv.Perm (Fin 6))
    (hlat₁ : -90 ≤ lat) (hlat₂ : lat ≤ 90)
    (hlng₁ : -180 ≤ lng) (hlng₂ : lng ≤ 180) :
    (get_comprehensive_urban_data lat lng today now latTile outcomes
        perm).sources.map Prod.fst =
      ["nasa_earthdata", "nasa_sedac", "eu_ghsl", "worldpop",
       "eu_copernicus", "wri"] := rfl

theorem comprehensive_sources_exactly_six_witness :
    (get_comprehensive_urban_data (407128/10000) (-740060/10000)
        "2025-10-12" "2025-10-12T00:00:00" 96
        (fun _ => .raised "boom") (Equiv.refl _)).sources.map Prod.fst =
      ["nasa_earthdata", "nasa_sedac", "eu_ghsl", "worldpop",
       "eu_copernicus", "wri"] :=
  comprehensive_sources_exactly_six _ _ _ _ _ _ _
    (by norm_num) (by norm_num) (by norm_num) (by norm_num)

/-- C2: if every one of the six upstream fetches fails, the aggregate is
still served as HTTP 200 (never the 500 branch), fully populated with all
six source entries, with zero succeeded sources and `total_sources = 6`. -/
theorem comprehensive_all_fail_http200 (lat lng : ℚ) (today now : String)
    (latTile : Int) (outcomes : Fin 6 → UpstreamOutcome)
    (perm : Equiv.Perm (Fin 6))
    (hfail : ∀ i, (outcomes i).isFailure = true) :
    ∃ data, http_get_comprehensive lat lng today now latTile outcomes perm =
        Except.ok data ∧
      data.summary.successful_sources.length = 0 ∧
      data.summary.total_sources = 6 ∧
      data.sources.map Prod.fst =
        ["nasa_earthdata", "nasa_sedac", "eu_ghsl", "worldpop",
         "eu_copernicus", "wri"] := by
  refine ⟨_, rfl, ?_, total_sources_eq _ _ _ _ _ _ _, rfl⟩
  rw [successful_sources_eq]
  simp [hfail]

theorem comprehensive_all_fail_http200_witness :
    ∃ data, http_get_comprehensive 0 0 "2025-10-12" "t" 0
        (fun _ => .raised "connection refused") (Equiv.refl _) =
        Except.ok data ∧
      data.summary.successful_sources.length = 0 ∧
      data.summary.total_sources = 6 ∧
      data.sources.map Prod.fst =
        ["nasa_earthdata", "nasa_sedac", "eu_ghsl", "worldpop",
         "eu_copernicus", "wri"] :=
  comprehensive_all_fail_http200 _ _ _ _ _ _ _ (fun _ => rfl)

/-- C3: a fetch that raised internally and a fetch that returned a
failure value are treated identically by the aggregate: both become a
one-key error dict in the `'sources'` mapping, the summary accounting
(`total_sources`, `successful_sources`, `failed_sources`) is the same in
both cases, and neither aborts the aggregate (both are served as
HTTP 200). -/
theorem raised_and_failure_treated_alike (lat lng : ℚ) (today now : String)
    (latTile : Int) (outcomes : Fin 6 → UpstreamOutcome)
    (perm : Equiv.Perm (Fin 6)) (i : Fin 6) (m : String) (st : Nat)
    (body : PyVal) (hst : st ≠ 200) :
    (∃ ma, (get_comprehensive_urban_data lat lng today now latTile
        (Function.update outcomes i (.raised m)) perm).sources.lookup
          (sourceKey i) = some (.val (.dict [("error", .s ma)]))) ∧
    (∃ mb, (get_comprehensive_urban_data lat lng today now latTile
        (Function.update outcomes i (.response st body)) perm).sources.lookup
          (sourceKey i) = some (.val (.dict [("error", .s mb)]))) ∧
    (get_comprehensive_urban_data lat lng today now latTile
        (Function.update outcomes i (.raised m)) perm).summary.total_sources =
      (get_comprehensive_urban_data lat lng today now latTile
        (Function.update outcomes i (.response st body))
          perm).summary.total_sources ∧
    (get_comprehensive_urban_data lat lng today now latTile
        (Function.update outcomes i (.raised m))
          perm).summary.successful_sources =
      (get_comprehensive_urban_data lat lng today now latTile
        (Function.update outcomes i (.response st body))
          perm).summary.successful_sources ∧
    (get_comprehensive_urban_data lat lng today now latTile
        (Function.update outcomes i (.raised m))
          perm).summary.failed_sources =
      (get_comprehensive_urban_data lat lng today now latTile
        (Function.update outcomes i (.response st body))
          perm).summary.failed_sources ∧
    http_get_comprehensive lat lng today now latTile
        (Function.update outcomes i (.raised m)) perm =
      Except.ok (get_comprehensive_urban_data lat lng today now latTile
        (Function.update outcomes i (.raised m)) perm) ∧
    http_get_comprehensive lat lng today now latTile
        (Function.update outcomes i (.response st body)) perm =
      Except.ok (get_comprehensive_urban_data lat lng today now latTile
        (Function.update outcomes i (.response st body)) perm) := by
  have hfa : (Function.update outcomes i (UpstreamOutcome.raised m) i).isFailure
      = true := by
    simp [UpstreamOutcome.isFailure]
  have hfb : (Function.update outcomes i
      (UpstreamOutcome.response st body) i).isFailure = true := by
    simp [UpstreamOutcome.isFailure, hst]
  refine ⟨?_, ?_, ?_, ?_, ?_, rfl, rfl⟩
  · obtain ⟨ma, hma⟩ := taskDict_fail lat lng today latTile _ i hfa
    exact ⟨ma, by rw [sources_lookup, hma]⟩
  · obtain ⟨mb, hmb⟩ := taskDict_fail lat lng today latTile _ i hfb
    exact ⟨mb, by rw [sources_lookup, hmb]⟩
  · rw [total_sources_eq, total_sources_eq]
  · rw [successful_sources_eq, successful_sources_eq]
    apply List.filterMap_congr
    intro j _
    by_cases hj : j = i
    · subst hj; simp [UpstreamOutcome.isFailure, hst]
    · simp [Function.update_noteq hj]
  · rw [failed_sources_eq, failed_sources_eq]

theorem raised_and_failure_treated_alike_witness :
    (get_comprehensive_urban_data 0 0 "d" "t" 0
        (Function.update (fun _ => .response 200 (.dict [])) 3
          (.raised "timeout")) (Equiv.refl _)).summary.successful_sources =
      (get_comprehensive_urban_data 0 0 "d" "t" 0
        (Function.update (fun _ => .response 200 (.dict [])) 3
          (.response 503 (.dict []))) (Equiv.refl _)).summary.successful_sources :=
  (raised_and_failure_treated_alike 0 0 "d" "t" 0
    (fun _ => .response 200 (.dict [])) (Equiv.refl _) 3 "timeout" 503
    (.dict []) (by decide)).2.2.2.1

/-- C4: if call `i` raises internally, the aggregate has a Failure entry
for source `i`, every other source `j ≠ i` keeps the entry its own
fetch produced, and that entry depends on nothing but source `j`'s own
outcome. -/
theorem raised_source_isolated (lat lng : ℚ) (today now : String)
    (latTile : Int) (outcomes : Fin 6 → UpstreamOutcome)
    (perm : Equiv.Perm (Fin 6)) (i : Fin 6) (m : String)
    (h : outcomes i = .raised m) :
    (∃ ma, (get_comprehensive_urban_data lat lng today now latTile outcomes
        perm).sources.lookup (sourceKey i) =
          some (.val (.dict [("error", .s ma)]))) ∧
    (∀ j : Fin 6, j ≠ i →
      (get_comprehensive_urban_data lat lng today now latTile outcomes
          perm).sources.lookup (sourceKey j) =
        some (.val (taskDict lat lng today latTile outcomes j))) ∧
    ∀ j : Fin 6, j ≠ i → ∀ outcomes' : Fin 6 → UpstreamOutcome,
      outcomes' j = outcomes j →
      (get_comprehensive_urban_data lat lng today now latTile outcomes'
          perm).sources.lookup (sourceKey j) =
        (get_comprehensive_urban_data lat lng today now latTile outcomes
          perm).sources.lookup (sourceKey j) := by
  refine ⟨?_, ?_, ?_⟩
  · obtain ⟨ma, hma⟩ := taskDict_fail lat lng today latTile outcomes i
      (by rw [h]; rfl)
    exact ⟨ma, by rw [sources_lookup, hma]⟩
  · intro j _
    exact sources_lookup _ _ _ _ _ _ _ _
  · intro j _ outcomes' hj
    rw [sources_lookup, sources_lookup,
      taskDict_congr lat lng today latTile outcomes outcomes' j hj]

theorem raised_source_isolated_witness :
    ∃ ma, (get_comprehensive_urban_data 0 0 "d" "t" 0
        (Function.update (fun _ => .response 200 (.dict [])) 2
          (.raised "boom")) (Equiv.refl _)).sources.lookup
          (sourceKey 2) = some (.val (.dict [("error", .s ma)])) :=
  (raised_source_isolated 0 0 "d" "t" 0
    (Function.update (fun _ => .response 200 (.dict [])) 2 (.raised "boom"))
    (Equiv.refl _) 2 "boom" (by simp)).1

/-- C5: the summary lists of the aggregate follow the declaration order
of the sources and are untouched by the completion order of the six
concurrent calls: any two completion orders produce the same response,
and `successful_sources` enumerates the succeeding sources in declaration
order (`failed_sources` is always empty). -/
theorem summary_order_declaration_not_completion (lat lng : ℚ)
    (today now : String) (latTile : Int)
    (outcomes : Fin 6 → UpstreamOutcome) (perm₁ perm₂ : Equiv.Perm (Fin 6)) :
    get_comprehensive_urban_data lat lng today now latTile outcomes perm₁ =
      get_comprehensive_urban_data lat lng today now latTile outcomes perm₂ ∧
    (get_comprehensive_urban_data lat lng today now latTile outcomes
        perm₁).summary.successful_sources =
      (List.finRange 6).filterMap (fun i =>
        if (outcomes i).isFailure then Option.none
        else some (.s (displayName i))) ∧
    (get_comprehensive_urban_data lat lng today now latTile outcomes
        perm₁).summary.failed_sources = [] :=
  ⟨by simp only [get_comprehensive_urban_data, gatherList_eq, gather_eq],
   successful_sources_eq _ _ _ _ _ _ _,
   failed_sources_eq _ _ _ _ _ _ _⟩

/-- C9: no gathered result is ever an exception (every fetch catches its
own), so `failed_sources` is always empty and `total_sources` is always
6; a source that failed appears in neither `successful_sources` nor
`failed_sources`, so the summary alone cannot reveal which sources
failed. -/
theorem summary_blind_to_failures (lat lng : ℚ) (today now : String)
    (latTile : Int) (outcomes : Fin 6 → UpstreamOutcome)
    (perm : Equiv.Perm (Fin 6)) :
    (∀ i : Fin 6,
      (gather perm (runTask lat lng today latTile outcomes) i).isException
        = false) ∧
    (get_comprehensive_urban_data lat lng today now latTile outcomes
        perm).summary.failed_sources = [] ∧
    (get_comprehensive_urban_data lat lng today now latTile outcomes
        perm).summary.total_sources = 6 ∧
    ∀ i : Fin 6, (outcomes i).isFailure = true →
      PyVal.s (displayName i) ∉
        (get_comprehensive_urban_data lat lng today now latTile outcomes
          perm).summary.successful_sources := by
  refine ⟨?_, failed_sources_eq _ _ _ _ _ _ _,
    total_sources_eq _ _ _ _ _ _ _, ?_⟩
  · intro i
    rw [gather_eq]
    rfl
  · intro i hi hmem
    rw [successful_sources_eq] at hmem
    rcases List.mem_filterMap.mp hmem with ⟨j, _, hfj⟩
    cases hfo : (outcomes j).isFailure with
    | true => rw [hfo] at hfj; simp at hfj
    | false =>
        rw [hfo] at hfj
        simp only [Bool.false_eq_true, if_false, Option.some.injEq,
          PyVal.s.injEq] at hfj
        have hji : j = i := displayName_inj j i hfj
        rw [hji, hi] at hfo
        cases hfo

theorem summary_blind_to_failures_witness :
    PyVal.s (displayName 3) ∉
      (get_comprehensive_urban_data 0 0 "d" "t" 0
        (fun _ => .raised "down") (Equiv.refl _)).summary.successful_sources :=
  (summary_blind_to_failures 0 0 "d" "t" 0 (fun _ => .raised "down")
    (Equiv.refl _)).2.2.2 3 rfl

/-- `AnalysisRequest` (main.py, lines 67-70): the pydantic request model
of `POST /api/analyze` and `POST /api/ai/analyze-urban-data`.  Its
declared fields are `coordinates`, `analysis_type` (default
"comprehensive") and `query` — there is no `context` field. -/
structure AnalysisRequest : Type where
  coordinates : List ℚ
  analysis_type : String
  query : Option String

/-- `ChatRequest` (main.py, lines 72-74). -/
structure ChatRequest : Type where
  message : String
  context : Option PyVal

/-- Attribute access on an `AnalysisRequest` instance: pydantic models
expose exactly their declared fields; reading any other attribute raises
`AttributeError`. -/
def AnalysisRequest.getattr (r : AnalysisRequest) (name : String) :
    Except PyErr PyVal :=
  if name = "coordinates" then .ok (.list (r.coordinates.map .n))
  else if name = "analysis_type" then .ok (.s r.analysis_type)
  else if name = "query" then .ok ((r.query.map PyVal.s).getD .none)
  else .error (.attributeError "AnalysisRequest" name)

/-- Python list indexing `xs[i]`: `IndexError` past the end (the
handlers only index with non-negative literals). -/
def pyIndex (xs : List ℚ) (i : Nat) : Except PyErr ℚ :=
  match xs.get? i with
  | some v => .ok v
  | Option.none => .error .indexError

/-- Python truthiness of a JSON-like value. -/
def pyTruthy : PyVal → Bool
  | .s v => v ≠ ""
  | .n v => v ≠ 0
  | .b v => v
  | .dict fs => !fs.isEmpty
  | .list xs => !xs.isEmpty
  | .none => false

/-- `x or d` for an optional Python value `x`: `d` when `x` is `None` or
falsy, otherwise `x`. -/
def pyOrDefault (v : Option PyVal) (d : PyVal) : PyVal :=
  match v with
  | some x => if pyTruthy x then x else d
  | Option.none => d

/-- `p.isPrefixOf`-style check on character lists, written out. -/
def listStarts : List Char → List Char → Bool
  | [], _ => true
  | _ :: _, [] => false
  | p :: ps, c :: cs => p == c && listStarts ps cs

def listHasSub (pat : List Char) : List Char → Bool
  | [] => listStarts pat []
  | c :: cs => listStarts pat (c :: cs) || listHasSub pat cs

/-- Python `pat in s` on strings: substring containment. -/
def strContainsSub (s pat : String) : Bool :=
  listHasSub pat.toList s.toList

/-- `AIAnalysisService._generate_urban_insights`
(ai_analysis_service.py, lines 64-79); pure hardcoded mock data. -/
def generate_urban_insights (lat lng radius_km : ℚ) : PyVal :=
  .dict [("urban_development_level", .s "Moderate"),
         ("infrastructure_density", .s "High"),
         ("green_space_availability", .s "Medium"),
         ("transportation_accessibility", .s "Good"),
         ("urban_heat_island_risk", .s "Medium"),
         ("development_potential", .s "High"),
         ("insights", .list [
           .s "Area shows signs of active urban development",
           .s "Good transportation connectivity present",
           .s "Opportunities for green space enhancement",
           .s "Potential for smart city initiatives"])]

/-- `AIAnalysisService._generate_climate_analysis` (lines 81-98). -/
def generate_climate_analysis (lat lng radius_km : ℚ) : PyVal :=
  .dict [("temperature_trends", .s "Increasing"),
         ("precipitation_patterns", .s "Variable"),
         ("air_quality_index", .s "Moderate"),
         ("climate_risks", .list [
           .s "Heat waves",
           .s "Heavy precipitation events",
           .s "Air quality concerns"]),
         ("adaptation_priorities", .list [
           .s "Urban heat island mitigation",
           .s "Stormwater management",
           .s "Air quality improvement"]),
         ("climate_score", .n (15/2))]

/-- `AIAnalysisService._generate_population_analysis` (lines 100-116). -/
def generate_population_analysis (lat lng radius_km : ℚ) : PyVal :=
  .dict [("population_density", .s "High"),
         ("urbanization_level", .s "Moderate"),
         ("demographic_trends", .s "Growing"),
         ("population_insights", .list [
           .s "High population density indicates urban core",
           .s "Moderate urbanization suggests development potential",
           .s "Growing trends require infrastructure planning"]),
         ("planning_implications", .list [
           .s "Need for housing development",
           .s "Transportation capacity planning",
           .s "Service provision scaling"])]

/-- `AIAnalysisService._generate_environmental_analysis` (lines 118-135). -/
def generate_environmental_analysis (lat lng radius_km : ℚ) : PyVal :=
  .dict [("land_use_patterns", .s "Mixed urban"),
         ("vegetation_health", .s "Moderate"),
         ("water_resources", .s "Adequate"),
         ("biodiversity_index", .s "Medium"),
         ("environmental_concerns", .list [
           .s "Urban sprawl impact",
           .s "Green space fragmentation",
           .s "Water quality maintenance"]),
         ("conservation_opportunities", .list [
           .s "Green corridor development",
           .s "Urban forest expansion",
           .s "Wetland restoration"])]

/-- `AIAnalysisService._generate_planning_recommendations`
(lines 137-164). -/
def generate_planning_recommendations (lat lng radius_km : ℚ) : PyVal :=
  .dict [("short_term_actions", .list [
           .s "Implement green infrastructure projects",
           .s "Enhance public transportation connectivity",
           .s "Develop mixed-use zoning policies",
           .s "Create climate adaptation plans"]),
         ("medium_term_goals", .list [
           .s "Establish urban growth boundaries",
           .s "Develop smart city infrastructure",
           .s "Implement sustainable building codes",
           .s "Create green space networks"]),
         ("long_term_vision", .list [
           .s "Achieve carbon neutrality",
           .s "Create resilient urban systems",
           .s "Develop circular economy principles",
           .s "Establish climate-adaptive communities"]),
         ("priority_areas", .list [
           .s "Transportation infrastructure",
           .s "Green space development",
           .s "Climate resilience",
           .s "Community engagement"])]

/-- `AIAnalysisService._generate_risk_assessment` (lines 166-193). -/
def generate_risk_assessment (lat lng radius_km : ℚ) : PyVal :=
  .dict [("climate_risks", .dict [
           ("heat_waves", .s "Medium"),
           ("flooding", .s "Low"),
           ("drought", .s "Low"),
           ("storms", .s "Medium")]),
         ("urban_risks", .dict [
           ("air_quality", .s "Medium"),
           ("traffic_congestion", .s "High"),
           ("infrastructure_aging", .s "Medium"),
           ("social_inequality", .s "Medium")]),
         ("environmental_risks", .dict [
           ("habitat_loss", .s "Medium"),
           ("water_pollution", .s "Low"),
           ("noise_pollution", .s "High"),
           ("light_pollution", .s "Medium")]),
         ("risk_mitigation", .list [
           .s "Develop early warning systems",
           .s "Implement adaptive infrastructure",
           .s "Create community resilience programs",
           .s "Establish monitoring networks"])]

/-- `AIAnalysisService._calculate_sustainability_score` (lines 195-214). -/
def calculate_sustainability_score (lat lng radius_km : ℚ) : PyVal :=
  .dict [("overall_score", .n (36/5)),
         ("environmental_score", .n (15/2)),
         ("social_score", .n (34/5)),
         ("economic_score", .n 7),
         ("governance_score", .n (15/2)),
         ("sustainability_level", .s "Good"),
         ("improvement_areas", .list [
           .s "Social equity",
           .s "Economic diversity",
           .s "Environmental conservation"]),
         ("strengths", .list [
           .s "Good governance",
           .s "Environmental awareness",
           .s "Economic stability"])]

/-- `AIAnalysisService.analyze_urban_data` (ai_analysis_service.py, lines
15-62): assembles the mock analyses into
`{'success': True, 'data': analysis, 'message': ...}`.  `now` stands for
`datetime.now().isoformat()`; the `try/except` never fires because every
helper is a pure dict literal. -/
def analyze_urban_data (lat lng radius_km : ℚ) (context : Option PyVal)
    (now : String) : PyVal :=
  .dict [("success", .b true),
         ("data", .dict [
           ("location", coordDict lat lng),
           ("radius_km", .n radius_km),
           ("analysis_timestamp", .s now),
           ("urban_insights", generate_urban_insights lat lng radius_km),
           ("climate_analysis", generate_climate_analysis lat lng radius_km),
           ("population_analysis",
             generate_population_analysis lat lng radius_km),
           ("environmental_analysis",
             generate_environmental_analysis lat lng radius_km),
           ("planning_recommendations",
             generate_planning_recommendations lat lng radius_km),
           ("risk_assessment", generate_risk_assessment lat lng radius_km),
           ("sustainability_score",
             calculate_sustainability_score lat lng radius_km)]),
         ("message", .s "Comprehensive urban analysis completed")]

/-- The handler of `POST /api/ai/analyze-urban-data` (main.py, lines
457-468).  Python evaluates the call's arguments left to right:
`request.coordinates[0]`, `request.coordinates[1]`, then
`context=request.context`.  `AnalysisRequest` declares no field named
`context`, so the last access raises `AttributeError`, which the
handler's `except` clause converts to HTTP 500
(`raise HTTPException(status_code=500, detail=str(e))`). -/
def api_ai_analyze_urban_data (r : AnalysisRequest) (now : String) :
    Except (Nat × String) PyVal :=
  match pyIndex r.coordinates 0 with
  | .error e => .error (500, e.str)
  | .ok lat =>
    match pyIndex r.coordinates 1 with
    | .error e => .error (500, e.str)
    | .ok lng =>
      match r.getattr "context" with
      | .error e => .error (500, e.str)
      | .ok ctx => .ok (analyze_urban_data lat lng 10 (some ctx) now)

/-- `AIAnalysisService._process_user_query` (ai_analysis_service.py,
lines 257-272): keyword dispatch on the lowercased query. -/
def process_user_query (query : String) (context : PyVal) : String :=
  let query_lower := query.toLower
  if strContainsSub query_lower "climate" then
    "Based on the climate data analysis, this area shows moderate climate risks with opportunities for heat island mitigation and stormwater management improvements."
  else if strContainsSub query_lower "population" then
    "The population analysis indicates high density with moderate urbanization, suggesting good potential for mixed-use development and infrastructure scaling."
  else if strContainsSub query_lower "environment" then
    "Environmental analysis shows mixed urban land use with moderate vegetation health and opportunities for green space enhancement and biodiversity conservation."
  else if strContainsSub query_lower "planning" then
    "Urban planning recommendations include implementing green infrastructure, enhancing transportation connectivity, and developing climate adaptation strategies."
  else if strContainsSub query_lower "sustainability" then
    "The sustainability score is 7.2/10, indicating good performance with opportunities for improvement in social equity and environmental conservation."
  else
    "I can help you analyze urban planning data including climate, population, environmental, and sustainability metrics. What specific aspect would you like to explore?"

/-- `AIAnalysisService._get_related_insights` (lines 274-295). -/
def get_related_insights (query : String) (context : PyVal) : List String :=
  let query_lower := query.toLower
  if strContainsSub query_lower "climate" then
    ["Temperature trends are increasing",
     "Air quality index is moderate",
     "Climate adaptation priorities identified"]
  else if strContainsSub query_lower "population" then
    ["High population density detected",
     "Moderate urbanization level",
     "Growing demographic trends"]
  else
    ["Urban development opportunities identified",
     "Climate resilience strategies available",
     "Sustainability improvement areas noted"]

/-- `AIAnalysisService._get_recommendations` (lines 297-318). -/
def get_recommendations (query : String) (context : PyVal) : List String :=
  let query_lower := query.toLower
  if strContainsSub query_lower "climate" then
    ["Implement urban heat island mitigation",
     "Develop stormwater management systems",
     "Create climate adaptation plans"]
  else if strContainsSub query_lower "population" then
    ["Plan for housing development",
     "Scale transportation capacity",
     "Enhance service provision"]
  else
    ["Develop green infrastructure",
     "Enhance public transportation",
     "Create mixed-use zoning policies"]

/-- `AIAnalysisService._get_data_sources` (lines 320-327). -/
def get_data_sources (query : String) (context : PyVal) : List String :=
  ["Landsat STAC API - Satellite imagery",
   "WorldPop API - Population data",
   "EU Copernicus - Environmental data",
   "NASA Image Library - Historical imagery"]

/-- `AIAnalysisService.generate_ai_chat_response` (ai_analysis_service.py,
lines 216-255): wraps the per-query pieces as
`{'success': True, 'data': response, 'message': ...}` with `response`
holding `query`, `response`, `related_insights`, `recommendations`,
`data_sources` and `timestamp`.  The `try/except` never fires: every
helper is pure. -/
def generate_ai_chat_response (user_query : String) (context : PyVal)
    (now : String) : PyVal :=
  .dict [("success", .b true),
         ("data", .dict [
           ("query", .s user_query),
           ("response", .s (process_user_query user_query context)),
           ("related_insights",
             .list ((get_related_insights user_query context).map .s)),
           ("recommendations",
             .list ((get_recommendations user_query context).map .s)),
           ("data_sources",
             .list ((get_data_sources user_query context).map .s)),
           ("timestamp", .s now)]),
         ("message", .s "AI response generated successfully")]

/-- The handler of `POST /api/ai/chat` (main.py, lines 470-480): passes
`request.message` and `request.context or {}` to the service and serves
the returned dict as HTTP 200; the `except` branch is unreachable
because the service call is total. -/
def api_ai_chat (r : ChatRequest) (now : String) :
    Except (Nat × String) PyVal :=
  Except.ok (generate_ai_chat_response r.message
    (pyOrDefault r.context (.dict [])) now)

/-- C6: every request with a valid coordinate pair to
`POST /api/ai/analyze-urban-data` is answered with HTTP 500, never the
claimed 200: the handler reads `request.context`, an attribute
`AnalysisRequest` does not declare, so `AttributeError` is raised and
converted to HTTP 500 on every request.  This contradicts the claim (and
the spec, which is clearly the intent given the service's `context`
parameter); the code's request model is the slip. -/
theorem analyze_urban_data_always_500 (coords : List ℚ) (atype : String)
    (q : Option String) (now : String) (h : 2 ≤ coords.length) :
    api_ai_analyze_urban_data ⟨coords, atype, q⟩ now =
      .error (500, (PyErr.attributeError "AnalysisRequest" "context").str) := by
  match coords, h with
  | a :: b :: rest, _ => rfl

theorem analyze_urban_data_always_500_witness :
    api_ai_analyze_urban_data
        ⟨[407128/10000, -740060/10000], "comprehensive", Option.none⟩
        "2025-10-12T00:00:00" =
      .error (500, (PyErr.attributeError "AnalysisRequest" "context").str) :=
  analyze_urban_data_always_500 _ _ _ _ (by simp)

/-- C7 counterexample: at the concrete request `{message: "hi"}` the
response body of `POST /api/ai/chat` has no top-level `response` or
`timestamp` key, refuting the claimed top-level shape
`{response: string, timestamp: string}`. -/
theorem ai_chat_top_level_not_flat :
    ∃ body, api_ai_chat ⟨"hi", Option.none⟩ "2025-10-12T00:00:00" =
        Except.ok body ∧
      pyGet body "response" = Option.none ∧
      pyGet body "timestamp" = Option.none :=
  ⟨_, rfl, rfl, rfl⟩

/-- C7 (amended): `POST /api/ai/chat` always responds HTTP 200 with a
top-level object `{success: true, data: object, message: string}`, where
`data.response` is a string and `data.timestamp` is the generation
timestamp string — the `{response, timestamp}` pair sits inside `data`,
not at the top level. -/
theorem ai_chat_response_shape (msg : String) (ctx : Option PyVal)
    (now : String) :
    ∃ body, api_ai_chat ⟨msg, ctx⟩ now = Except.ok body ∧
      pyGet body "success" = some (.b true) ∧
      (∃ d, pyGet body "data" = some d ∧
        (∃ rs, pyGet d "response" = some (.s rs)) ∧
        pyGet d "timestamp" = some (.s now)) ∧
      pyGet body "message" = some (.s "AI response generated successfully") :=
  ⟨_, rfl, rfl, ⟨_, rfl, ⟨_, rfl⟩, rfl⟩, rfl⟩

/-- Python float division `a / b`: raises `ZeroDivisionError` when the
denominator is zero (Python floats raise rather than produce inf here). -/
def pyDiv (a b : ℚ) : Except PyErr ℚ :=
  if b = 0 then .error .zeroDivisionError else .ok (a / b)

mutual

/-- Structural equality of Python JSON-like values (`==`). -/
def pyBeq : PyVal → PyVal → Bool
  | .s a, .s b => a == b
  | .n a, .n b => a == b
  | .b a, .b b => a == b
  | .dict fs, .dict gs => pyBeqFields fs gs
  | .list xs, .list ys => pyBeqList xs ys
  | .none, .none => true
  | _, _ => false

def pyBeqFields : List (String × PyVal) → List (String × PyVal) → Bool
  | [], [] => true
  | (k, v) :: fs, (k', v') :: gs => k == k' && pyBeq v v' && pyBeqFields fs gs
  | _, _ => false

def pyBeqList : List PyVal → List PyVal → Bool
  | [], [] => true
  | x :: xs, y :: ys => pyBeq x y && pyBeqList xs ys
  | _, _ => false

end

/-- `d.get(k, default)`: `AttributeError` when `d` is not a dict (only
dicts have `.get`; the object name in the message is immaterial to every
claim and abbreviated to "value"). -/
def pyDictGetD (d : PyVal) (k : String) (default : PyVal) :
    Except PyErr PyVal :=
  match d with
  | .dict fs => .ok ((fs.lookup k).getD default)
  | _ => .error (.attributeError "value" "get")

/-- Python `k in v`: key test on dicts, membership on lists, substring
test on strings, `TypeError` otherwise. -/
def pyIn (k : String) (v : PyVal) : Except PyErr Bool :=
  match v with
  | .dict fs => .ok (fs.lookup k).isSome
  | .list xs => .ok (xs.any fun x => pyBeq x (.s k))
  | .s t => .ok (strContainsSub t k)
  | _ => .error (.typeError "argument is not a container")

/-- One entry of the `assets` loop of `LandsatService._process_landsat_data`
(landsat_service.py, lines 271-279): rebuilds the band dict via
`band_info.get(...)` (which raises `AttributeError` if `band_info` is not
a dict). -/
def processAsset (band_name : String) (band_info : PyVal) :
    Except PyErr (String × PyVal) := do
  let href ← pyDictGetD band_info "href" .none
  let title ← pyDictGetD band_info "title" (.s band_name)
  let descr ← pyDictGetD band_info "description" (.s "")
  let ty ← pyDictGetD band_info "type" (.s "image/tiff")
  let roles ← pyDictGetD band_info "roles" (.list [])
  pure (band_name,
    .dict [("href", href), ("title", title), ("description", descr),
           ("type", ty), ("roles", roles)])

/-- One iteration of the `features` loop of
`LandsatService._process_landsat_data` (landsat_service.py, lines
258-281).  `item.get("properties", {})` is re-evaluated per field in the
source; it is pure, so it is bound once here. -/
def processItem (item : PyVal) : Except PyErr PyVal := do
  let id ← pyDictGetD item "id" .none
  let props ← pyDictGetD item "properties" (.dict [])
  let dt ← pyDictGetD props "datetime" .none
  let cc ← pyDictGetD props "eo:cloud_cover" (.n 0)
  let sat ← pyDictGetD props "platform" .none
  let instruments ← pyDictGetD props "instruments" (.list [.s ""])
  let instrument ←
    match instruments with
    | .list xs =>
        match xs.get? 0 with
        | some v => Except.ok v
        | Option.none => Except.error PyErr.indexError
    | _ => Except.error (.typeError "object is not subscriptable")
  let geom ← pyDictGetD item "geometry" .none
  let bbox ← pyDictGetD item "bbox" .none
  -- `if "assets" in item: for band_name, band_info in item["assets"].items()`
  let assetFields ←
    match pyGet item "assets" with
    | some (.dict bands) => bands.mapM fun p => processAsset p.1 p.2
    | some _ => Except.error (.attributeError "value" "items")
    | Option.none => Except.ok []
  pure (.dict [("id", id), ("datetime", dt), ("cloud_cover", cc),
               ("satellite", sat), ("instrument", instrument),
               ("geometry", geom), ("bbox", bbox),
               ("assets", .dict assetFields)])

/-- `LandsatService._process_landsat_data` (landsat_service.py, lines
245-296): processes `raw_data.get("features", [])`; any exception inside
the loop is caught by the method's own `except` and becomes the error
dict.  `now` stands for `datetime.now().isoformat()`. -/
def process_landsat_data (raw_data : PyVal) (now : String) : PyVal :=
  let r : Except PyErr (List PyVal) := do
    let features ← pyDictGetD raw_data "features" (.list [])
    match features with
    | .list items => items.mapM processItem
    | _ => Except.error (.typeError "object is not iterable")
  match r with
  | .ok processed_items =>
      .dict [("success", .b true),
             ("data", .list processed_items),
             ("total_items", .n processed_items.length),
             ("collection", .s "landsat-c2l2-sr"),
             ("timestamp", .s now)]
  | .error e =>
      .dict [("error", .s ("Error processing Landsat data: " ++ e.str)),
             ("success", .b false), ("data", .none)]

/-- `LandsatService.search_satellite_data` (landsat_service.py, lines
31-86).  The params/query construction (bbox join, datetime range,
cloud-cover query JSON) is pure and only shapes the request, represented
by `o`.  On a 200 response the parsed body is processed; any other
status raises `Exception(f"API request failed with status {...}")`,
which the method's own `except` catches — like any exception raised
before — and converts to the error dict. -/
def search_satellite_data (bbox : List ℚ) (cloud_cover : Option ℤ)
    (limit : ℤ) (o : UpstreamOutcome) (now : String) : PyVal :=
  match o with
  | .response st body =>
      if st = 200 then process_landsat_data body now
      else .dict [("error",
              .s ("API request failed with status " ++ toString st)),
            ("success", .b false), ("data", .none)]
  | .raised m =>
      .dict [("error", .s m), ("success", .b false), ("data", .none)]

/-- `LandsatService.get_satellite_imagery` (landsat_service.py, lines
88-121).  The bounding-box computation sits OUTSIDE any `try`:
`lat_offset = radius_km / 111.0` never raises, but
`lng_offset = radius_km / (111.0 * abs(lat) / 90.0)` raises
`ZeroDivisionError` whenever `lat = 0`, and that exception propagates to
the caller. -/
def get_satellite_imagery (lat lng radius_km : ℚ) (cloud_cover limit : ℤ)
    (o : UpstreamOutcome) (now : String) : Except PyErr PyVal :=
  let lat_offset := radius_km / 111
  match pyDiv radius_km (111 * |lat| / 90) with
  | .error e => .error e
  | .ok lng_offset =>
      let bbox := [lng - lng_offset, lat - lat_offset,
                   lng + lng_offset, lat + lat_offset]
      .ok (search_satellite_data bbox (some cloud_cover) limit o now)

/-- One iteration of the vegetation loop of
`LandsatService.get_vegetation_analysis` (landsat_service.py, lines
155-169): `some` when a metric is appended, `Option.none` when the item
is skipped.  Every item produced by `_process_landsat_data` is a dict;
the non-dict branches reproduce what Python `in` / subscription would
raise there. -/
def vegetationMetric (item : PyVal) : Except PyErr (Option PyVal) :=
  match item with
  | .dict fs =>
      match fs.lookup "assets" with
      | Option.none => Except.ok Option.none
      | some (.dict bands) =>
          let vegetation_bands := bands.filter fun p =>
            p.1 == "nir08" || p.1 == "red" || p.1 == "green" || p.1 == "blue"
          if vegetation_bands.isEmpty then Except.ok Option.none
          else do
            let props ← pyDictGetD (.dict fs) "properties" (.dict [])
            let dt ← pyDictGetD props "datetime" (.s "")
            let cc ← pyDictGetD props "eo:cloud_cover" (.n 0)
            pure (some (.dict [("date", dt), ("cloud_cover", cc),
              ("available_bands",
                .list (vegetation_bands.map fun p => PyVal.s p.1)),
              ("band_info", .dict vegetation_bands)]))
      | some _ => Except.error (.attributeError "value" "items")
  | .list xs =>
      if xs.any (fun x => pyBeq x (.s "assets")) then
        Except.error (.typeError "list indices must be integers")
      else Except.ok Option.none
  | .s t =>
      if strContainsSub t "assets" then
        Except.error (.typeError "string indices must be integers")
      else Except.ok Option.none
  | _ => Except.error (.typeError "argument is not a container")

/-- One iteration of the thermal loop of
`LandsatService.get_urban_heat_island_data` (landsat_service.py, lines
217-230). -/
def thermalMetric (item : PyVal) : Except PyErr (Option PyVal) :=
  match item with
  | .dict fs =>
      match fs.lookup "assets" with
      | Option.none => Except.ok Option.none
      | some (.dict bands) =>
          let thermal_bands := bands.filter fun p =>
            strContainsSub p.1.toLower "thermal" ||
              p.1 == "lwir11" || p.1 == "lwir12"
          if thermal_bands.isEmpty then Except.ok Option.none
          else do
            let props ← pyDictGetD (.dict fs) "properties" (.dict [])
            let dt ← pyDictGetD props "datetime" (.s "")
            let cc ← pyDictGetD props "eo:cloud_cover" (.n 0)
            pure (some (.dict [("date", dt), ("cloud_cover", cc),
              ("thermal_bands", .dict thermal_bands)]))
      | some _ => Except.error (.attributeError "value" "items")
  | .list xs =>
      if xs.any (fun x => pyBeq x (.s "assets")) then
        Except.error (.typeError "list indices must be integers")
      else Except.ok Option.none
  | .s t =>
      if strContainsSub t "assets" then
        Except.error (.typeError "string indices must be integers")
      else Except.ok Option.none
  | _ => Except.error (.typeError "argument is not a container")

/-- `LandsatService.get_vegetation_analysis` (landsat_service.py, lines
123-182).  The whole body sits in one `try`, so the `ZeroDivisionError`
propagating out of `get_satellite_imagery` (and any loop error) is
caught here and returned as `{'error': str(e), 'success': False,
'data': None}`.  The `data` value of a successful search is always a
list; the fallback branch reproduces the `TypeError` Python would raise
iterating a non-iterable. -/
def get_vegetation_analysis (lat lng radius_km : ℚ) (o : UpstreamOutcome)
    (now : String) : PyVal :=
  let r : Except PyErr PyVal := do
    let satellite_data ← get_satellite_imagery lat lng radius_km 20 5 o now
    let success := (pyGet satellite_data "success").getD .none
    if !pyTruthy success then pure satellite_data
    else do
      let data := (pyGet satellite_data "data").getD (.list [])
      let metricsOpt ←
        match data with
        | .list items => items.mapM vegetationMetric
        | _ => Except.error (.typeError "object is not iterable")
      let metrics := metricsOpt.filterMap id
      pure (.dict [("success", .b true),
        ("data", .dict [("location", coordDict lat lng),
          ("radius_km", .n radius_km),
          ("vegetation_metrics", .list metrics),
          ("analysis_timestamp", .s now)]),
        ("message", .s ("Found " ++ toString metrics.length ++
          " vegetation data points"))])
  match r with
  | .ok v => v
  | .error e =>
      .dict [("error", .s e.str), ("success", .b false), ("data", .none)]

/-- `LandsatService.get_urban_heat_island_data` (landsat_service.py,
lines 184-243): same structure as the vegetation analysis, with
`cloud_cover=10, limit=3` and thermal bands. -/
def get_urban_heat_island_data (lat lng radius_km : ℚ)
    (o : UpstreamOutcome) (now : String) : PyVal :=
  let r : Except PyErr PyVal := do
    let satellite_data ← get_satellite_imagery lat lng radius_km 10 3 o now
    let success := (pyGet satellite_data "success").getD .none
    if !pyTruthy success then pure satellite_data
    else do
      let data := (pyGet satellite_data "data").getD (.list [])
      let metricsOpt ←
        match data with
        | .list items => items.mapM thermalMetric
        | _ => Except.error (.typeError "object is not iterable")
      let metrics := metricsOpt.filterMap id
      pure (.dict [("success", .b true),
        ("data", .dict [("location", coordDict lat lng),
          ("radius_km", .n radius_km),
          ("thermal_data", .list metrics),
          ("analysis_timestamp", .s now)]),
        ("message", .s ("Found " ++ toString metrics.length ++
          " thermal data points"))])
  match r with
  | .ok v => v
  | .error e =>
      .dict [("error", .s e.str), ("success", .b false), ("data", .none)]

/-- The handler of `GET /api/landsat/satellite-imagery` (main.py, lines
276-290): an exception escaping the service call — in particular the
`ZeroDivisionError` at `lat = 0` — becomes HTTP 500 with `str(e)`. -/
def api_landsat_satellite_imagery (lat lng radius_km : ℚ)
    (cloud_cover limit : ℤ) (o : UpstreamOutcome) (now : String) :
    Except (Nat × String) PyVal :=
  match get_satellite_imagery lat lng radius_km cloud_cover limit o now with
  | .ok data => .ok data
  | .error e => .error (500, e.str)

/-- The handler of `GET /api/landsat/vegetation-analysis` (main.py,
lines 292-304): the service call is total (it catches internally), so
the handler's `except` branch is unreachable and the dict is served as
HTTP 200. -/
def api_landsat_vegetation_analysis (lat lng radius_km : ℚ)
    (o : UpstreamOutcome) (now : String) : Except (Nat × String) PyVal :=
  Except.ok (get_vegetation_analysis lat lng radius_km o now)

/-- The handler of `GET /api/landsat/urban-heat-island` (main.py, lines
306-318). -/
def api_landsat_urban_heat_island (lat lng radius_km : ℚ)
    (o : UpstreamOutcome) (now : String) : Except (Nat × String) PyVal :=
  Except.ok (get_urban_heat_island_data lat lng radius_km o now)

/-- When the bounding-box computation raises, the satellite-imagery
handler surfaces HTTP 500 with `str(e)`. -/
theorem api_sat_error (lat lng radius_km : ℚ) (cloud_cover limit : ℤ)
    (o : UpstreamOutcome) (now : String) (e : PyErr)
    (h : get_satellite_imagery lat lng radius_km cloud_cover limit o now =
      Except.error e) :
    api_landsat_satellite_imagery lat lng radius_km cloud_cover limit o now =
      Except.error (500, e.str) := by
  unfold api_landsat_satellite_imagery
  rw [h]

/-- When the satellite search raises, the vegetation analysis catches it
and returns the error dict. -/
theorem veg_error_of_sat_error (lat lng radius_km : ℚ)
    (o : UpstreamOutcome) (now : String) (e : PyErr)
    (h : get_satellite_imagery lat lng radius_km 20 5 o now =
      Except.error e) :
    get_vegetation_analysis lat lng radius_km o now =
      .dict [("error", .s e.str), ("success", .b false), ("data", .none)] := by
  unfold get_vegetation_analysis
  rw [h]
  rfl

/-- When the satellite search raises, the heat-island analysis catches
it and returns the error dict. -/
theorem heat_error_of_sat_error (lat lng radius_km : ℚ)
    (o : UpstreamOutcome) (now : String) (e : PyErr)
    (h : get_satellite_imagery lat lng radius_km 10 3 o now =
      Except.error e) :
    get_urban_heat_island_data lat lng radius_km o now =
      .dict [("error", .s e.str), ("success", .b false), ("data", .none)] := by
  unfold get_urban_heat_island_data
  rw [h]
  rfl

/-- The offending division: at `lat = 0` the denominator
`111.0 * abs(lat) / 90.0` is exactly zero, so `get_satellite_imagery`
raises `ZeroDivisionError` for every radius and parameter choice. -/
theorem sat_imagery_equator_raises (lng radius_km : ℚ)
    (cloud_cover limit : ℤ) (o : UpstreamOutcome) (now : String) :
    get_satellite_imagery 0 lng radius_km cloud_cover limit o now =
      Except.error .zeroDivisionError := by
  have h0 : (111 * |(0 : ℚ)| / 90) = 0 := by norm_num
  simp [get_satellite_imagery, pyDiv, h0]

/-- C10 counterexample: at the concrete equatorial input `lat = 0`,
`lng = 0`, `radius_km = 5`, the vegetation-analysis endpoint does NOT
return HTTP 500 as claimed: its own `try` catches the
`ZeroDivisionError` and serves the error dict as HTTP 200. -/
theorem equator_vegetation_returns_200 :
    api_landsat_vegetation_analysis 0 0 5 (.raised "unreachable") "t" =
      Except.ok (.dict [("error", .s "float division by zero"),
        ("success", .b false), ("data", .none)]) := by
  unfold api_landsat_vegetation_analysis
  rw [veg_error_of_sat_error 0 0 5 (.raised "unreachable") "t"
    .zeroDivisionError (sat_imagery_equator_raises 0 5 20 5 _ _)]
  rfl

/-- C10 (amended): for `lat = 0`, any longitude and positive radius,
computing `radius_km / (111.0 * abs(lat) / 90.0)` raises
`ZeroDivisionError`; `GET /api/landsat/satellite-imagery` therefore
returns HTTP 500, while the vegetation-analysis and urban-heat-island
endpoints catch the exception inside their own `try` blocks and return
HTTP 200 with the error dict `{'error': 'float division by zero',
'success': False, 'data': None}` as body. -/
theorem equator_division_by_zero (lng radius_km : ℚ)
    (cloud_cover limit : ℤ) (o : UpstreamOutcome) (now : String)
    (hr : 0 < radius_km) :
    get_satellite_imagery 0 lng radius_km cloud_cover limit o now =
      Except.error .zeroDivisionError ∧
    api_landsat_satellite_imagery 0 lng radius_km cloud_cover limit o now =
      Except.error (500, "float division by zero") ∧
    api_landsat_vegetation_analysis 0 lng radius_km o now =
      Except.ok (.dict [("error", .s "float division by zero"),
        ("success", .b false), ("data", .none)]) ∧
    api_landsat_urban_heat_island 0 lng radius_km o now =
      Except.ok (.dict [("error", .s "float division by zero"),
        ("success", .b false), ("data", .none)]) := by
  refine ⟨sat_imagery_equator_raises _ _ _ _ _ _, ?_, ?_, ?_⟩
  · exact api_sat_error _ _ _ _ _ _ _ _
      (sat_imagery_equator_raises _ _ _ _ _ _)
  · unfold api_landsat_vegetation_analysis
    rw [veg_error_of_sat_error _ _ _ _ _ _
      (sat_imagery_equator_raises _ _ _ _ _ _)]
    rfl
  · unfold api_landsat_urban_heat_island
    rw [heat_error_of_sat_error _ _ _ _ _ _
      (sat_imagery_equator_raises _ _ _ _ _ _)]
    rfl

theorem equator_division_by_zero_witness :
    api_landsat_satellite_imagery 0 (-740060/10000) 5 20 5
        (.raised "unreachable") "t" =
      Except.error (500, "float division by zero") :=
  (equator_division_by_zero (-740060/10000) 5 20 5 (.raised "unreachable")
    "t" (by norm_num)).2.1
